import Mathlib

/-!
Shallow embedding of `pg-replicate-sql`: the PostgreSQL wire front end
(`pkg/pgwire/postgres.go`), the replication startup sequence
(`pkg/replicate/run.go`) and the position reader (`sqlgen.DbDriver.Pos`).

Bytes are modelled as `Nat`, query text as `List Char` (the front end only
matches ASCII keywords; Go's `strings.ToLower` coincides with ASCII case
mapping there).  External components — `database/sql` rows, the upstream
`Exec` results, the replication connection — are modelled as oracle values
describing the outcome the external call produced.
-/

namespace Sqledge

/-- ASCII lower-casing of one character, as Go's `strings.ToLower` acts on
the ASCII subset. -/
def goToLowerChar (c : Char) : Char :=
  if 'A' ≤ c && c ≤ 'Z' then Char.ofNat (c.toNat + 32) else c

/-- `strings.ToLower` over the query text (ASCII model). -/
def goToLower (s : List Char) : List Char := s.map goToLowerChar

/-- Boolean string-start test, as Go's `strings.HasPrefix`. -/
def isPre : List Char → List Char → Bool
  | [], _ => true
  | _ :: _, [] => false
  | a :: as, b :: bs => a == b && isPre as bs

/-- No newline in a character run: Go's regexp `.` does not match `\n`. -/
def noNL (s : List Char) : Bool := s.all (fun c => c != '\n')

/-- The run of characters of `s` from index `a` (inclusive) to `b`
(exclusive). -/
def seg (s : List Char) (a b : Nat) : List Char := (s.drop a).take (b - a)

/-- `regexp.MustCompile("with .* as (.*) select").MatchString s`
(`postgres.go:30`): the string contains `"with "`, then a newline-free run,
then `" as "`, then a newline-free run, then `" select"`.  The parentheses
in the pattern only form a capture group. -/
def matchWith (s : List Char) : Bool :=
  let n := s.length
  (List.range (n + 1)).any fun i =>
    isPre "with ".toList (s.drop i) &&
    (List.range (n + 1)).any fun j =>
      decide (i + 5 ≤ j) && isPre " as ".toList (s.drop j) &&
        noNL (seg s (i + 5) j) &&
      (List.range (n + 1)).any fun k =>
        decide (j + 4 ≤ k) && isPre " select".toList (s.drop k) &&
          noNL (seg s (j + 4) k)

/-- The branch of the `switch` in `Handle` (`postgres.go:68-227`) a query
falls into. -/
inductive QueryClass where
  | read | updateQ | insertQ | deleteQ
  | createTableQ | deleteTableQ | alterTableQ | unknown
deriving DecidableEq, Repr

/-- The `switch` of `Handle` on the already-lower-cased query text, in
source order (`postgres.go:68-227`).  Note the `delete table` arm is tested
after the `delete` arm, and there is no `drop table` arm. -/
def dispatchLower (s : List Char) : QueryClass :=
  if isPre "select".toList s || matchWith s then .read
  else if isPre "update".toList s then .updateQ
  else if isPre "insert".toList s then .insertQ
  else if isPre "delete".toList s then .deleteQ
  else if isPre "create table".toList s then .createTableQ
  else if isPre "delete table".toList s then .deleteTableQ
  else if isPre "alter table".toList s then .alterTableQ
  else .unknown

/-- Classification of a raw query: `Handle` lower-cases the body
(`query := strings.ToLower(...)`, `postgres.go:66`) before the switch. -/
def classify (q : List Char) : QueryClass := dispatchLower (goToLower q)

/-- One result column as `database/sql` reports it: `rows.Columns()` gives
the name, `rows.ColumnTypes()[i].DatabaseTypeName()` the driver type name.
`database/sql` returns one entry of each per result column, so the two Go
slices are modelled as one list. -/
structure Col where
  name : String
  dbTypeName : String
deriving DecidableEq, Repr

/-- The result set `local.Query` returned: its columns and the driver rows
the cursor yields.  A driver row is the value vector `rows.Scan` copies
out, `none` marking SQL NULL (a nil `[]byte`). -/
structure Rows where
  cols : List Col
  rows : List (List (Option String))
deriving DecidableEq, Repr

/-- One field of a `RowDescription` as `rowDesc` fills it
(`postgres.go:364-369`): name, type OID, type size, type modifier. -/
structure FieldDescription where
  name : String
  dataTypeOID : Nat
  dataTypeSize : Int
  typeModifier : Int
deriving DecidableEq, Repr

/-- The backend messages `Handle` writes, at the `pgproto3` level. -/
inductive Frame where
  | rowDescription (fields : List FieldDescription)
  | dataRow (values : List (Option String))
  | commandComplete (tag : String)
  | readyForQuery (txStatus : Char)
  | errorResponse (message : String)
deriving DecidableEq, Repr

/-- `rowData` (`postgres.go:314-341`): one `DataRow` per cursor row.  The
scan destinations are `len(cols)` many `*[]byte` (which accept every
driver value), so `rows.Scan` fails — and the row is skipped by the
`continue` at line 334 — exactly when the driver row's arity differs from
the column count. -/
def rowData (rs : Rows) : List Frame :=
  rs.rows.filterMap fun r =>
    if r.length = rs.cols.length then some (Frame.dataRow r) else none

/-- `rowDesc` (`postgres.go:343-373`): one field per column, OID and size
looked up through `sqlgen.ColType(strings.ToLower(name)).PgType()`.  The
type mapper lives outside the given sources, so the lookup is a parameter
`pgType`. -/
def rowDesc (pgType : String → Nat × Int) (rs : Rows) : List FieldDescription :=
  rs.cols.map fun c =>
    ⟨c.name, (pgType c.dbTypeName.toLower).1, (pgType c.dbTypeName.toLower).2, -1⟩

/-- `errReadyForQuery` (`postgres.go:375-384`): an `ErrorResponse` with the
error's message, then `ReadyForQuery` with status `I`. -/
def errReadyForQuery (msg : String) : List Frame :=
  [Frame.errorResponse msg, Frame.readyForQuery 'I']

/-- `fmt`'s `%q` on one ASCII character (common escapes). -/
def goQuoteChar (c : Char) : List Char :=
  if c = '"' then ['\\', '"']
  else if c = '\\' then ['\\', '\\']
  else if c = '\n' then ['\\', 'n']
  else if c = '\t' then ['\\', 't']
  else [c]

/-- `fmt.Errorf("...%q", s)`'s rendering of `s` (ASCII model). -/
def goQuote (s : List Char) : String := String.mk ('"' :: (s.map goQuoteChar).flatten ++ ['"'])

/-- Outcome of `sql.Result.RowsAffected` after a successful `Exec`. -/
def affected : Except String Int → Int
  | .ok n => n
  | .error _ => 0

/-- Outcomes of the external calls one iteration of `Handle`'s query loop
can make: `local.Query(query)` and `upstream.Exec(query)` (the latter
paired with its `RowsAffected` outcome, whose error `Handle` ignores,
leaving the count 0), plus the type-mapper lookup used by `rowDesc`. -/
structure Env where
  localResult : Except String Rows
  upstreamExec : Except String (Except String Int)
  pgType : String → Nat × Int

/-- The write reply of the `update`/`insert`/`delete` arms
(`postgres.go:102-161`): `CommandComplete` with the tag prefix and the
affected-row count, then `ReadyForQuery('I')`. -/
def writeReply (env : Env) (tagPre : String) : List Frame :=
  match env.upstreamExec with
  | .error e => errReadyForQuery ("failed to query upstream: " ++ e)
  | .ok ra => [Frame.commandComplete (tagPre ++ toString (affected ra)),
               Frame.readyForQuery 'I']

/-- The DDL reply of the `create table`/`delete table`/`alter table` arms
(`postgres.go:162-221`): a fixed tag, then `ReadyForQuery('I')`. -/
def ddlReply (env : Env) (tag : String) : List Frame :=
  match env.upstreamExec with
  | .error e => errReadyForQuery ("failed to query upstream: " ++ e)
  | .ok _ => [Frame.commandComplete tag, Frame.readyForQuery 'I']

/-- One iteration of `Handle`'s query loop (`postgres.go:66-227`) on the
NUL-stripped body `q`: the frames written back to the client.  `Handle`
lower-cases `q` once and both dispatches on and forwards the lower-cased
text. -/
def queryStep (env : Env) (q : List Char) : List Frame :=
  let s := goToLower q
  match dispatchLower s with
  | .read =>
      match env.localResult with
      | .error e => errReadyForQuery ("failed to query local: " ++ e)
      | .ok rs =>
          Frame.rowDescription (rowDesc env.pgType rs) ::
            rowData rs ++
            [Frame.commandComplete "", Frame.readyForQuery 'I']
  | .updateQ => writeReply env "UPDATE "
  | .insertQ => writeReply env "INSERT 0 "
  | .deleteQ => writeReply env "DELETE "
  | .createTableQ => ddlReply env "CREATE TABLE"
  | .deleteTableQ => ddlReply env "DELETE TABLE"
  | .alterTableQ => ddlReply env "ALTER TABLE"
  | .unknown => errReadyForQuery ("unknown query type: " ++ goQuote s)

/-- Dispatch on the message-type byte of the query loop
(`postgres.go:47-55`): `Q` (81) handles the query (stripping the trailing
NUL, `body[:len(body)-1]`) and keeps looping; `X` (88) closes the
connection; any other tag makes the handler return.  The `Bool` is whether
the session loop continues. -/
def handleMessage (env : Env) (tag : Nat) (body : List Char) : List Frame × Bool :=
  if tag = 81 then (queryStep env body.dropLast, true) else ([], false)

/-- `SSLRequest` sentinel (`postgres.go:20`). -/
def SSLRequest : Nat := 80877103

/-- `StartupMessage` sentinel (`postgres.go:21`). -/
def StartupMessage : Nat := 196608

/-- `binary.BigEndian.Uint32` of the first four bytes. -/
def be32 : List Nat → Nat
  | a :: b :: c :: d :: _ => ((a * 256 + b) * 256 + c) * 256 + d
  | _ => 0

/-- The bytes the `StartupMessage` arm of `onStart` writes
(`postgres.go:263-308`), in order: `AuthenticationOk` — type byte `R` (82),
length 8, payload 0; `BackendKeyData` — type byte `K` (75), length 12,
process id 1234, secret 5678; `ReadyForQuery` — type byte `Z` (90),
length 5, status `I` (73). -/
def startupReply : List Nat :=
  [82, 0, 0, 0, 8, 0, 0, 0, 0] ++
  [75, 0, 0, 0, 12, 0, 0, 4, 210, 0, 0, 22, 46] ++
  [90, 0, 0, 0, 5, 73]

/-- Terminal outcome of `onStart`: `nil` or an error. -/
inductive StartResult where
  | ok
  | err (msg : String)
deriving DecidableEq, Repr

/-- `onStart` (`postgres.go:235-312`) over the startup frames the client
sends, each frame being the message body after its 4-byte length word (the
reads are modelled as exact, so the body's length is the declared
`l = len - 4`).  Returns the bytes written and the outcome: body length
outside `[4, 10000]` errors out; leading int `SSLRequest` writes `N` (78)
and recurses on the remaining input; `StartupMessage` writes
`startupReply`; any other leading int writes nothing and returns `nil`.
An empty input models a failing `conn.Read`. -/
def onStart : List (List Nat) → List Nat × StartResult
  | [] => ([], .err "read msg len")
  | body :: rest =>
      let l := body.length
      if l < 4 ∨ 10000 < l then ([], .err "invalid msg len")
      else if be32 body = SSLRequest then
        ((78 :: (onStart rest).1), (onStart rest).2)
      else if be32 body = StartupMessage then (startupReply, .ok)
      else ([], .ok)

/-- Modelled from the spec: `Conn.DropPublication` (its source is not under
`src/`; `run.go` only calls it).  Spec §4.5: on startup it issues
`DROP PUBLICATION IF EXISTS <p>`. -/
def dropPublicationCmd (p : String) : String := "DROP PUBLICATION IF EXISTS " ++ p

/-- Modelled from the spec: `Conn.CreatePublication` (its source is not
under `src/`).  Spec §4.5: it issues `CREATE PUBLICATION <p> FOR ALL
TABLES`. -/
def createPublicationCmd (p : String) : String :=
  "CREATE PUBLICATION " ++ p ++ " FOR ALL TABLES"

/-- Outcomes of the external calls `replicate.Run` makes, in call order:
`NewConn`, `Conn.DropPublication`, `Conn.CreatePublication`, `sqlx.Open`,
`InitPositionTable`, `CurrentSchema`, `Conn.Stream`. -/
structure ReplOracle where
  newConn : Except String Unit
  dropPub : Except String Unit
  createPub : Except String Unit
  openLocal : Except String Unit
  initPos : Except String Unit
  currentSchema : Except String Unit
  stream : Except String Unit

/-- What a run of `replicate.Run` did: the publication commands issued
upstream in order, whether `conn.Stream` was reached, and the returned
error if any. -/
structure RunOutcome where
  cmds : List String
  streamed : Bool
  result : Except String Unit
deriving Repr

/-- `replicateConnection` (`run.go:73-88`): `NewConn`, then
`DropPublication`, then `CreatePublication`, each short-circuiting on
error with a wrapped message.  Returns the publication commands issued
and the result. -/
def replicateConnection (o : ReplOracle) (p : String) : List String × Except String Unit :=
  match o.newConn with
  | .error e => ([], .error ("new conn: " ++ e))
  | .ok _ =>
    match o.dropPub with
    | .error e => ([dropPublicationCmd p], .error ("drop publication: " ++ e))
    | .ok _ =>
      match o.createPub with
      | .error e => ([dropPublicationCmd p, createPublicationCmd p],
                     .error ("create publication: " ++ e))
      | .ok _ => ([dropPublicationCmd p, createPublicationCmd p], .ok ())

/-- `replicate.Run` (`run.go:14-71`): `replicateConnection`, then opening
the local store, position-table init, schema load, and finally
`conn.Stream`; every step short-circuits on error with `Run`'s wrapped
message. -/
def Run (o : ReplOracle) (p : String) : RunOutcome :=
  match replicateConnection o p with
  | (cmds, .error e) => ⟨cmds, false, .error ("create replicate connection: " ++ e)⟩
  | (cmds, .ok _) =>
    match o.openLocal with
    | .error e => ⟨cmds, false, .error ("connect to local db: " ++ e)⟩
    | .ok _ =>
      match o.initPos with
      | .error e => ⟨cmds, false, .error ("init position tracking: " ++ e)⟩
      | .ok _ =>
        match o.currentSchema with
        | .error e => ⟨cmds, false, .error ("get current schema: " ++ e)⟩
        | .ok _ =>
          match o.stream with
          | .error e => ⟨cmds, true, .error ("streaming failed: " ++ e)⟩
          | .ok _ => ⟨cmds, true, .ok ()⟩

/-- Outcome of `row.Scan(&pos)` in `DbDriver.Pos`: a position string, the
`sql.ErrNoRows` sentinel, or another scan error. -/
inductive ScanResult where
  | ok (pos : String)
  | noRows
  | err (e : String)
deriving DecidableEq, Repr

/-- `DbDriver.Pos` (sqlgen): returns the pair Go returns — the position
string and the error (`none` for `nil`).  `sql.ErrNoRows` yields
`("", nil)`; any other scan error yields `""` and the wrapped error. -/
def Pos (r : ScanResult) : String × Option String :=
  match r with
  | .ok p => (p, none)
  | .noRows => ("", none)
  | .err e => ("", some ("read position: " ++ e))

/-! ## Helper lemmas -/

/-- A string starts with itself followed by anything. -/
theorem isPre_self_append (p t : List Char) : isPre p (p ++ t) = true := by
  induction p with
  | nil => rfl
  | cons a as ih => simp [isPre, ih]

/-- A string starting with `a ++ b` starts with `a`. -/
theorem isPre_of_append (a b s : List Char) (h : isPre (a ++ b) s = true) :
    isPre a s = true := by
  induction a generalizing s with
  | nil => rfl
  | cons c cs ih =>
      cases s with
      | nil => simp [isPre] at h
      | cons d ds =>
          simp only [List.cons_append, isPre, Bool.and_eq_true] at h ⊢
          exact ⟨h.1, ih ds h.2⟩

/-- Every frame `rowData` emits is a `DataRow` whose value count is the
column count. -/
theorem rowData_shape (rs : Rows) (f : Frame) (h : f ∈ rowData rs) :
    ∃ vs, f = Frame.dataRow vs ∧ vs.length = rs.cols.length := by
  simp only [rowData, List.mem_filterMap] at h
  obtain ⟨r, _, hif⟩ := h
  split at hif
  · cases hif
    exact ⟨r, rfl, by assumption⟩
  · cases hif

/-- When every cursor row has the column count's arity, no row is skipped. -/
theorem rowData_full (cols : List Col) (l : List (List (Option String)))
    (h : ∀ r ∈ l, r.length = cols.length) :
    (rowData ⟨cols, l⟩).length = l.length := by
  induction l with
  | nil => rfl
  | cons r t ih =>
      have hr : r.length = cols.length := h r (by simp)
      have ht := ih fun x hx => h x (by simp [hx])
      simp only [rowData, List.filterMap_cons] at ht ⊢
      rw [if_pos hr]
      simpa using ht

/-- `rowDesc` has one field per column. -/
theorem rowDesc_length (pg : String → Nat × Int) (rs : Rows) :
    (rowDesc pg rs).length = rs.cols.length := by
  simp [rowDesc]

/-! ## The claims -/

/-- C10: `DbDriver.Pos` maps the absent-row case to the empty position with
no error, any other scan failure to the empty position with the wrapped
non-nil error, and a present row to its position with no error. -/
theorem pos_absent_vs_failure :
    Pos .noRows = ("", none) ∧
    (∀ e, Pos (.err e) = ("", some ("read position: " ++ e))) ∧
    (∀ p, Pos (.ok p) = (p, none)) :=
  ⟨rfl, fun _ => rfl, fun _ => rfl⟩

/-- C2: during startup, a frame whose leading int is the `SSLRequest`
sentinel makes `onStart` write the single byte `N` (78) and recurse on the
remaining input; a frame whose leading int is the `StartupMessage` sentinel
makes it write, in order, `AuthenticationOk` (type `R` = 82, payload 0),
`BackendKeyData` (type `K` = 75, fixed id 1234 and secret 5678), and
`ReadyForQuery` (type `Z` = 90, payload `I` = 73). -/
theorem startup_handshake_replies (ssl startup : List Nat)
    (rest rest2 : List (List Nat))
    (h1 : ssl.length = 4) (h2 : be32 ssl = SSLRequest)
    (h3 : 4 ≤ startup.length) (h4 : startup.length ≤ 10000)
    (h5 : be32 startup = StartupMessage) :
    onStart (ssl :: rest) = ((78 :: (onStart rest).1), (onStart rest).2) ∧
    onStart (startup :: rest2) = (startupReply, .ok) ∧
    startupReply =
      [82, 0, 0, 0, 8, 0, 0, 0, 0] ++
      [75, 0, 0, 0, 12, 0, 0, 4, 210, 0, 0, 22, 46] ++
      [90, 0, 0, 0, 5, 73] := by
  refine ⟨?_, ?_, rfl⟩
  · have hlen : ¬(ssl.length < 4 ∨ 10000 < ssl.length) := by omega
    simp [onStart, hlen, h2]
  · have hlen : ¬(startup.length < 4 ∨ 10000 < startup.length) := by omega
    have hne : StartupMessage ≠ SSLRequest := by decide
    simp [onStart, hlen, hne, h5]

/-- Witness for C2 at the concrete sentinel encodings: `80877103` is the
bytes `[4, 210, 22, 47]` and `196608` is `[0, 3, 0, 0]`. -/
theorem startup_handshake_replies_witness :
    onStart [[4, 210, 22, 47], [0, 3, 0, 0]] = (78 :: startupReply, StartResult.ok) := by
  have h := startup_handshake_replies [4, 210, 22, 47] [0, 3, 0, 0] [[0, 3, 0, 0]] []
    rfl (by decide) (by decide) (by decide) (by decide)
  rw [h.1, h.2.1]

/-- C4 counterexample: the dispatcher never trims whitespace, so two
queries differing only in leading whitespace are classified differently —
`"select 1"` is a read, `" select 1"` is an unknown query. -/
theorem classify_whitespace_counterexample :
    classify "select 1".toList = .read ∧
    classify " select 1".toList = .unknown :=
  ⟨by decide, by decide⟩

/-- C4 amended: classification factors through Go's `ToLower`, so it is
case-insensitive — queries equal after lower-casing classify identically —
but whitespace is not trimmed (see the counterexample). -/
theorem classify_case_insensitive (q1 q2 : List Char)
    (h : goToLower q1 = goToLower q2) : classify q1 = classify q2 := by
  unfold classify
  rw [h]

/-- Witness for the amended C4: `"SELECT 1"` and `"select 1"` lower-case
equally and classify equally. -/
theorem classify_case_insensitive_witness :
    goToLower "SELECT 1".toList = goToLower "select 1".toList ∧
    classify "SELECT 1".toList = classify "select 1".toList :=
  ⟨by decide, classify_case_insensitive _ _ (by decide)⟩

/-- An environment whose local query and upstream exec both succeed
trivially (used only to evaluate dispatch branches at concrete inputs). -/
def env0 : Env := ⟨.ok ⟨[], []⟩, .ok (.ok 0), fun _ => (0, 0)⟩

/-- C3 (code bug): a `drop table` statement hits no arm of the switch —
`Handle` replies with an `ErrorResponse`, not `CommandComplete("DROP
TABLE")`.  Moreover the `delete table` arm (the apparent misspelling of
`drop table`) is dead code: it is tested after the `delete` arm, whose
condition subsumes it, so no query is ever classified `deleteTableQ`. -/
theorem drop_table_not_handled :
    classify "drop table t;".toList = .unknown ∧
    queryStep env0 "drop table t;".toList =
      [Frame.errorResponse "unknown query type: \"drop table t;\"",
       Frame.readyForQuery 'I'] ∧
    (∀ q : List Char, classify q ≠ .deleteTableQ) := by
  refine ⟨by decide, by decide, fun q h => ?_⟩
  unfold classify dispatchLower at h
  split_ifs at h with h1 h2 h3 h4 h5 h6 h7
  all_goals simp_all
  exact absurd
    (isPre_of_append "delete".toList " table".toList (goToLower q)
      (by simpa using h6))
    (by simpa using h4)

/-- C6: a write whose upstream `Exec` succeeds and reports `n` affected
rows replies `CommandComplete` with tag `INSERT 0 <n>`, `UPDATE <n>`, or
`DELETE <n>` according to the statement kind, followed by
`ReadyForQuery('I')`. -/
theorem write_command_tags (env : Env) (q : List Char) (n : Int)
    (h : env.upstreamExec = .ok (.ok n)) :
    (classify q = .insertQ →
      queryStep env q = [Frame.commandComplete ("INSERT 0 " ++ toString n),
                         Frame.readyForQuery 'I']) ∧
    (classify q = .updateQ →
      queryStep env q = [Frame.commandComplete ("UPDATE " ++ toString n),
                         Frame.readyForQuery 'I']) ∧
    (classify q = .deleteQ →
      queryStep env q = [Frame.commandComplete ("DELETE " ++ toString n),
                         Frame.readyForQuery 'I']) := by
  unfold classify at *
  refine ⟨fun hc => ?_, fun hc => ?_, fun hc => ?_⟩ <;>
    simp [queryStep, hc, writeReply, h, affected]

/-- An environment whose upstream `Exec` succeeds with one affected row. -/
def env1 : Env := ⟨.ok ⟨[], []⟩, .ok (.ok 1), fun _ => (0, 0)⟩

/-- Witness for C6 at concrete insert/update/delete statements with one
affected row. -/
theorem write_command_tags_witness :
    queryStep env1 "insert into t values(1)".toList =
      [Frame.commandComplete ("INSERT 0 " ++ toString (1 : Int)),
       Frame.readyForQuery 'I'] ∧
    queryStep env1 "update t set a=1".toList =
      [Frame.commandComplete ("UPDATE " ++ toString (1 : Int)),
       Frame.readyForQuery 'I'] ∧
    queryStep env1 "delete from t".toList =
      [Frame.commandComplete ("DELETE " ++ toString (1 : Int)),
       Frame.readyForQuery 'I'] :=
  ⟨(write_command_tags env1 _ 1 rfl).1 (by decide),
   (write_command_tags env1 _ 1 rfl).2.1 (by decide),
   (write_command_tags env1 _ 1 rfl).2.2 (by decide)⟩

/-- C7: a failing local query, a failing upstream execution, and an
unrecognized query each produce an `ErrorResponse` carrying the error
message followed by `ReadyForQuery('I')`, and the query loop continues
(the session stays open) after every simple query. -/
theorem errors_reply_and_keep_session (env : Env) (q : List Char) (e : String) :
    (classify q = .read → env.localResult = .error e →
      queryStep env q = [Frame.errorResponse ("failed to query local: " ++ e),
                         Frame.readyForQuery 'I']) ∧
    (classify q ≠ .read → classify q ≠ .unknown → env.upstreamExec = .error e →
      queryStep env q = [Frame.errorResponse ("failed to query upstream: " ++ e),
                         Frame.readyForQuery 'I']) ∧
    (classify q = .unknown →
      queryStep env q =
        [Frame.errorResponse ("unknown query type: " ++ goQuote (goToLower q)),
         Frame.readyForQuery 'I']) ∧
    (∀ body, (handleMessage env 81 body).2 = true) := by
  unfold classify
  refine ⟨fun hc hl => ?_, fun hc1 hc2 hu => ?_, fun hc => ?_, fun body => rfl⟩
  · simp [queryStep, hc, hl, errReadyForQuery]
  · unfold classify at hc1 hc2
    cases hd : dispatchLower (goToLower q) <;>
      simp_all [queryStep, writeReply, ddlReply, errReadyForQuery]
  · simp [queryStep, hc, errReadyForQuery]

/-- An environment whose local query and upstream exec both fail. -/
def env2 : Env := ⟨.error "boom", .error "broke", fun _ => (0, 0)⟩

/-- Witness for C7 at a failing read, a failing write, and an unknown
query. -/
theorem errors_reply_and_keep_session_witness :
    queryStep env2 "select 1".toList =
      [Frame.errorResponse ("failed to query local: " ++ "boom"),
       Frame.readyForQuery 'I'] ∧
    queryStep env2 "update t set a=1".toList =
      [Frame.errorResponse ("failed to query upstream: " ++ "broke"),
       Frame.readyForQuery 'I'] ∧
    queryStep env2 "foo".toList =
      [Frame.errorResponse
        ("unknown query type: " ++ goQuote (goToLower "foo".toList)),
       Frame.readyForQuery 'I'] ∧
    (handleMessage env2 81 "select 1".toList).2 = true :=
  ⟨(errors_reply_and_keep_session env2 _ "boom").1 (by decide) rfl,
   (errors_reply_and_keep_session env2 _ "broke").2.1 (by decide) (by decide) rfl,
   (errors_reply_and_keep_session env2 _ "broke").2.2.1 (by decide),
   (errors_reply_and_keep_session env2 "select 1".toList "boom").2.2.2
     "select 1".toList⟩

/-- Recognizer for `DataRow` frames. -/
def isDataRow : Frame → Bool
  | .dataRow _ => true
  | _ => false

/-- C1: a successful read replies with exactly one `DataRow` per row the
local store returned (`database/sql` yields each driver row with one value
per column, the stated hypothesis), and every `DataRow`'s field count
equals the field count of the `RowDescription` frame of the same reply. -/
theorem read_reply_row_counts (env : Env) (q : List Char) (rs : Rows)
    (hc : classify q = .read) (hl : env.localResult = .ok rs)
    (hwf : ∀ r ∈ rs.rows, r.length = rs.cols.length) :
    (queryStep env q).countP isDataRow = rs.rows.length ∧
    (∀ fds vs, Frame.rowDescription fds ∈ queryStep env q →
      Frame.dataRow vs ∈ queryStep env q → vs.length = fds.length) := by
  unfold classify at hc
  have hq : queryStep env q =
      Frame.rowDescription (rowDesc env.pgType rs) ::
        rowData rs ++ [Frame.commandComplete "", Frame.readyForQuery 'I'] := by
    simp [queryStep, hc, hl]
  constructor
  · rw [hq]
    have hall : ∀ f ∈ rowData rs, isDataRow f = true := by
      intro f hf
      obtain ⟨vs, rfl, -⟩ := rowData_shape rs f hf
      rfl
    have hcnt : (rowData rs).countP isDataRow = (rowData rs).length :=
      List.countP_eq_length.mpr hall
    obtain ⟨cols, l⟩ := rs
    simp only [List.countP_cons, List.countP_append] at *
    simp [isDataRow, hcnt, rowData_full cols l hwf]
  · intro fds vs hfd hdr
    rw [hq] at hfd hdr
    have hfds : fds = rowDesc env.pgType rs := by
      rcases List.mem_cons.mp hfd with h | h
      · cases h; rfl
      · rcases List.mem_append.mp h with h | h
        · obtain ⟨ws, hws, -⟩ := rowData_shape rs _ h
          cases hws
        · simp at h
    have hvs : vs.length = rs.cols.length := by
      rcases List.mem_cons.mp hdr with h | h
      · cases h
      · rcases List.mem_append.mp h with h | h
        · obtain ⟨ws, hws, hlen⟩ := rowData_shape rs _ h
          cases hws
          exact hlen
        · simp at h
    rw [hvs, hfds, rowDesc_length]

/-- A one-column result set with two rows (the second NULL). -/
def rows1 : Rows := ⟨[⟨"a", "int4"⟩], [[some "1"], [none]]⟩

/-- An environment whose local query returns `rows1`. -/
def env3 : Env := ⟨.ok rows1, .ok (.ok 0), fun _ => (23, 4)⟩

/-- Witness for C1 on a two-row result: two `DataRow` frames, and the
first row's field count equals the `RowDescription`'s. -/
theorem read_reply_row_counts_witness :
    (queryStep env3 "select a from t".toList).countP isDataRow = rows1.rows.length ∧
    ([some "1"] : List (Option String)).length = (rowDesc env3.pgType rows1).length := by
  have h := read_reply_row_counts env3 "select a from t".toList rows1
    (by decide) rfl (by decide)
  exact ⟨h.1, h.2 (rowDesc env3.pgType rows1) [some "1"] (by decide) (by decide)⟩

/-- Every `ReadyForQuery` in `errReadyForQuery`'s output is idle. -/
theorem rfq_idle_err (m : String) (c : Char)
    (h : Frame.readyForQuery c ∈ errReadyForQuery m) : c = 'I' := by
  simp [errReadyForQuery] at h
  exact h

/-- Every `ReadyForQuery` in `writeReply`'s output is idle. -/
theorem rfq_idle_write (env : Env) (p : String) (c : Char)
    (h : Frame.readyForQuery c ∈ writeReply env p) : c = 'I' := by
  unfold writeReply at h
  split at h
  · exact rfq_idle_err _ _ h
  · simp at h
    exact h

/-- Every `ReadyForQuery` in `ddlReply`'s output is idle. -/
theorem rfq_idle_ddl (env : Env) (t : String) (c : Char)
    (h : Frame.readyForQuery c ∈ ddlReply env t) : c = 'I' := by
  unfold ddlReply at h
  split at h
  · exact rfq_idle_err _ _ h
  · simp at h
    exact h

/-- C9: every `ReadyForQuery` the front end sends is idle: any such frame
in any query-loop reply carries `I`, and the startup output is some number
of `N` bytes optionally followed by the fixed `startupReply`, whose sole
`ReadyForQuery` message (at offset 22) is `Z`, length 5, status `I`
(73). -/
theorem ready_for_query_always_idle :
    (∀ env q c, Frame.readyForQuery c ∈ queryStep env q → c = 'I') ∧
    (∀ input, ∃ k, (onStart input).1 = List.replicate k 78 ++ startupReply ∨
                   (onStart input).1 = List.replicate k 78) ∧
    startupReply.drop 22 = [90, 0, 0, 0, 5, 73] := by
  refine ⟨fun env q c h => ?_, fun input => ?_, by decide⟩
  · cases hd : dispatchLower (goToLower q)
    case read =>
      cases hl : env.localResult with
      | error e =>
          rw [show queryStep env q = errReadyForQuery ("failed to query local: " ++ e)
            by simp [queryStep, hd, hl]] at h
          exact rfq_idle_err _ _ h
      | ok rs =>
          rw [show queryStep env q =
              Frame.rowDescription (rowDesc env.pgType rs) :: rowData rs ++
                [Frame.commandComplete "", Frame.readyForQuery 'I']
            by simp [queryStep, hd, hl]] at h
          rcases List.mem_cons.mp h with h1 | h1
          · cases h1
          · rcases List.mem_append.mp h1 with h2 | h2
            · obtain ⟨ws, hws, -⟩ := rowData_shape _ _ h2
              cases hws
            · simp at h2
              exact h2
    case updateQ =>
      rw [show queryStep env q = writeReply env "UPDATE " by simp [queryStep, hd]] at h
      exact rfq_idle_write _ _ _ h
    case insertQ =>
      rw [show queryStep env q = writeReply env "INSERT 0 " by simp [queryStep, hd]] at h
      exact rfq_idle_write _ _ _ h
    case deleteQ =>
      rw [show queryStep env q = writeReply env "DELETE " by simp [queryStep, hd]] at h
      exact rfq_idle_write _ _ _ h
    case createTableQ =>
      rw [show queryStep env q = ddlReply env "CREATE TABLE" by simp [queryStep, hd]] at h
      exact rfq_idle_ddl _ _ _ h
    case deleteTableQ =>
      rw [show queryStep env q = ddlReply env "DELETE TABLE" by simp [queryStep, hd]] at h
      exact rfq_idle_ddl _ _ _ h
    case alterTableQ =>
      rw [show queryStep env q = ddlReply env "ALTER TABLE" by simp [queryStep, hd]] at h
      exact rfq_idle_ddl _ _ _ h
    case unknown =>
      rw [show queryStep env q =
          errReadyForQuery ("unknown query type: " ++ goQuote (goToLower q))
        by simp [queryStep, hd]] at h
      exact rfq_idle_err _ _ h
  · have hne : StartupMessage ≠ SSLRequest := by decide
    induction input with
    | nil => exact ⟨0, Or.inr rfl⟩
    | cons body rest ih =>
        by_cases h1 : body.length < 4 ∨ 10000 < body.length
        · exact ⟨0, Or.inr (by simp [onStart, h1])⟩
        · by_cases h2 : be32 body = SSLRequest
          · obtain ⟨k, hk | hk⟩ := ih
            · exact ⟨k + 1, Or.inl (by simp [onStart, h1, h2, hk, List.replicate_succ])⟩
            · exact ⟨k + 1, Or.inr (by simp [onStart, h1, h2, hk, List.replicate_succ])⟩
          · by_cases h3 : be32 body = StartupMessage
            · exact ⟨0, Or.inl (by simp [onStart, h1, h2, h3, hne])⟩
            · exact ⟨0, Or.inr (by simp [onStart, h1, h2, h3])⟩

/-- Witness for C9: the read reply to `select 1` contains a
`ReadyForQuery` frame, and its status is forced to `I`. -/
theorem ready_for_query_always_idle_witness :
    Frame.readyForQuery 'I' ∈ queryStep env1 "select 1".toList ∧ ('I' : Char) = 'I' :=
  ⟨by decide, ready_for_query_always_idle.1 env1 "select 1".toList 'I' (by decide)⟩

/-- C8: on replication startup the publication is dropped before it is
created — the upstream publication commands are exactly
`DROP PUBLICATION IF EXISTS <p>` then `CREATE PUBLICATION <p> FOR ALL
TABLES` (never the creation before the drop), and streaming is reached
only when both succeeded. -/
theorem publication_drop_before_create (o : ReplOracle) (p : String) :
    ((Run o p).streamed = true →
      (Run o p).cmds = [dropPublicationCmd p, createPublicationCmd p] ∧
      o.dropPub = .ok () ∧ o.createPub = .ok ()) ∧
    ((Run o p).cmds = [] ∨ (Run o p).cmds = [dropPublicationCmd p] ∨
      (Run o p).cmds = [dropPublicationCmd p, createPublicationCmd p]) := by
  obtain ⟨nc, dp, cp, ol, ip, cs, st⟩ := o
  cases nc <;> cases dp <;> cases cp <;> cases ol <;> cases ip <;> cases cs <;>
    cases st <;> simp [Run, replicateConnection]

/-- The oracle in which every replication-startup step succeeds. -/
def allOkOracle : ReplOracle :=
  ⟨.ok (), .ok (), .ok (), .ok (), .ok (), .ok (), .ok ()⟩

/-- Witness for C8: with every step succeeding, streaming is reached and
the commands are the drop followed by the create. -/
theorem publication_drop_before_create_witness :
    (Run allOkOracle "pub").cmds =
      [dropPublicationCmd "pub", createPublicationCmd "pub"] ∧
    allOkOracle.dropPub = .ok () ∧ allOkOracle.createPub = .ok () :=
  (publication_drop_before_create allOkOracle "pub").1 rfl

/-- The `with .* as (.*) select` regexp matches every string of the shape
`"with " ++ x ++ " as " ++ y ++ " select" ++ rest` with newline-free `x`
and `y` (Go's `.` does not match a newline). -/
theorem matchWith_concat (x y rest : List Char)
    (hx : noNL x = true) (hy : noNL y = true) :
    matchWith ("with ".toList ++ x ++ " as ".toList ++ y ++
      " select".toList ++ rest) = true := by
  have hW : ("with ".toList).length = 5 := rfl
  have hA : (" as ".toList).length = 4 := rfl
  have hS : (" select".toList).length = 7 := rfl
  set s := "with ".toList ++ x ++ " as ".toList ++ y ++ " select".toList ++ rest
    with hs
  have hlen : s.length = 16 + (x.length + y.length + rest.length) := by
    rw [hs]
    simp only [List.length_append, hW, hA, hS]
    omega
  have hg0 : s = "with ".toList ++
      (x ++ (" as ".toList ++ (y ++ (" select".toList ++ rest)))) := by
    rw [hs]
    simp [List.append_assoc]
  have hg1len : ("with ".toList ++ x).length = 5 + x.length := by
    simp only [List.length_append, hW]
  have hg1 : s = ("with ".toList ++ x) ++
      (" as ".toList ++ (y ++ (" select".toList ++ rest))) := by
    rw [hs]
    simp [List.append_assoc]
  have hg2len : ("with ".toList ++ x ++ " as ".toList).length = 5 + x.length + 4 := by
    simp only [List.length_append, hW, hA]
  have hg2 : s = ("with ".toList ++ x ++ " as ".toList) ++
      (y ++ (" select".toList ++ rest)) := by
    rw [hs]
    simp [List.append_assoc]
  have hg3len : ("with ".toList ++ x ++ " as ".toList ++ y).length =
      9 + x.length + y.length := by
    simp only [List.length_append, hW, hA]
    omega
  have hg3 : s = ("with ".toList ++ x ++ " as ".toList ++ y) ++
      (" select".toList ++ rest) := by
    rw [hs]
    simp [List.append_assoc]
  unfold matchWith
  refine List.any_eq_true.mpr ⟨0, List.mem_range.mpr (by omega), ?_⟩
  simp only [Bool.and_eq_true]
  refine ⟨?_, ?_⟩
  · rw [List.drop_zero, hg0]
    exact isPre_self_append _ _
  · refine List.any_eq_true.mpr ⟨5 + x.length, List.mem_range.mpr (by omega), ?_⟩
    simp only [Bool.and_eq_true]
    refine ⟨⟨⟨?_, ?_⟩, ?_⟩, ?_⟩
    · rw [decide_eq_true_eq]
      omega
    · rw [hg1, List.drop_left' hg1len]
      exact isPre_self_append _ _
    · simp only [seg]
      rw [show (0 : Nat) + 5 = 5 from rfl, show 5 + x.length - 5 = x.length by omega,
        hg0, List.drop_left' hW, List.take_left]
      exact hx
    · refine List.any_eq_true.mpr
        ⟨9 + x.length + y.length, List.mem_range.mpr (by omega), ?_⟩
      simp only [Bool.and_eq_true]
      refine ⟨⟨?_, ?_⟩, ?_⟩
      · rw [decide_eq_true_eq]
        omega
      · rw [hg3, List.drop_left' hg3len]
        exact isPre_self_append _ _
      · simp only [seg]
        rw [show 9 + x.length + y.length - (5 + x.length + 4) = y.length by omega,
          hg2, List.drop_left' hg2len, List.take_left]
        exact hy

/-- C5 counterexample: a CTE of the claimed form whose parenthesized body
contains a newline is NOT classified as a read.  `with x as (a\nb) select c`
decomposes as `"with " ++ x ++ " as (" ++ inner ++ ") select" ++ rest` with
`x = "x"`, `inner = "a\nb"`, `rest = " c"`, yet Go's regexp `.` does not
match a newline, the only `" select"` occurrence has the newline in its
gap, and the query does not start with `select` — so `Handle` sends it to
the default (error) arm instead of the local store. -/
theorem with_select_newline_counterexample :
    goToLower "with x as (a\nb) select c".toList =
      "with ".toList ++ "x".toList ++ " as (".toList ++ "a\nb".toList ++
        ") select".toList ++ " c".toList ∧
    classify "with x as (a\nb) select c".toList = .unknown :=
  ⟨by decide, by decide⟩

/-- C5 amended: every query of the form `WITH x AS (…) SELECT …` whose
binding name and parenthesized body are newline-free is classified `read`
— `Handle` dispatches it to the local store.  (A newline inside the
parentheses can defeat the regexp; see the counterexample.) -/
theorem with_select_classified_read (q x inner rest : List Char)
    (hq : goToLower q =
      "with ".toList ++ x ++ " as (".toList ++ inner ++ ") select".toList ++ rest)
    (hx : noNL x = true) (hinner : noNL inner = true) :
    classify q = .read := by
  have hsplit : "with ".toList ++ x ++ " as (".toList ++ inner ++
      ") select".toList ++ rest
      = "with ".toList ++ x ++ " as ".toList ++ ('(' :: (inner ++ [')'])) ++
        " select".toList ++ rest := by
    have e1 : " as (".toList = " as ".toList ++ ['('] := rfl
    have e2 : ") select".toList = [')'] ++ " select".toList := rfl
    rw [e1, e2]
    simp [List.append_assoc]
  have hy : noNL ('(' :: (inner ++ [')'])) = true := by
    simp only [noNL, List.all_cons, List.all_append] at hinner ⊢
    simp [hinner]
  have hm : matchWith (goToLower q) = true := by
    rw [hq, hsplit]
    exact matchWith_concat x _ rest hx hy
  unfold classify dispatchLower
  simp [hm]

/-- Witness for C5 on a concrete CTE query (mixed case). -/
theorem with_select_classified_read_witness :
    classify "WITH x AS (SELECT a FROM b) SELECT * FROM x".toList = .read :=
  with_select_classified_read _ "x".toList "select a from b".toList
    " * from x".toList (by decide) (by decide) (by decide)

end Sqledge
